import Mathlib

/-!
Shallow embedding of the async notification system
(src/models.py, src/persistence.py, src/rabbitmq_service.py,
src/main.py, src/consumers.py) together with proofs of the
specified properties.

Conventions of the embedding:
* Python dictionaries keyed by `traceId` become association lists
  (`List (String × StatusData)`); assignment `db[k] = v` overwrites the
  existing binding in place or appends a new one, exactly as a Python
  dict does.
* Python truthiness of the optional `traceId` value (`if trace_id:`)
  becomes: present (`some t`) and non-empty (`t ≠ ""`).
* The broker is an external collaborator; its behaviour at a given call
  is modelled by a `BrokerEnv` oracle saying whether a connection
  attempt succeeds and whether a publish attempt succeeds.
* An exception escaping a Python coroutine is modelled by an explicit
  `raised` flag (for the gateway) or a `serverError` result (for the
  HTTP endpoint, where FastAPI converts it into a 5xx response).
-/

/-- The stored notification state, from `models.NotificacaoStatus` and the
dict literal built in `main.notificar`.  `traceId` is `Option String`
because `persistence.notification_status_create` receives a plain dict
and must handle a missing key (`data.get("traceId")`). -/
structure StatusData where
  traceId : Option String
  mensagemId : String
  conteudoMensagem : String
  tipoNotificacao : String
  status : String
deriving Repr, DecidableEq

/-- The in-memory store `persistence.db_em_memoria`, a dict from traceId
to the notification data, as an association list. -/
abbrev Store := List (String × StatusData)

/-- Python dict assignment `db[k] = v`: overwrite the binding in place if
the key exists, otherwise append the new binding at the end. -/
def dictInsert (k : String) (v : StatusData) : Store → Store
  | [] => [(k, v)]
  | kv :: rest => if kv.1 == k then (k, v) :: rest else kv :: dictInsert k v rest

/-- `persistence.notification_status_create`: reads `data.get("traceId")`
and inserts only when that value is truthy (present and non-empty). -/
def notification_status_create (data : StatusData) (db : Store) : Store :=
  match data.traceId with
  | none => db
  | some t => if t = "" then db else dictInsert t data db

/-- Mutation `db[trace_id]['status'] = new_status` on one record. -/
def setStatus (d : StatusData) (s : String) : StatusData :=
  { d with status := s }

/-- `persistence.notification_status_update`: if the key is present,
overwrite the `status` field of the stored record; otherwise do
nothing. -/
def notification_status_update (trace_id new_status : String) (db : Store) : Store :=
  if db.any (fun kv => kv.1 == trace_id) then
    db.map (fun kv => if kv.1 == trace_id then (kv.1, setStatus kv.2 new_status) else kv)
  else db

/-- `persistence.notification_status_get`: `db_em_memoria.get(trace_id)`,
the value at the key or `none`. -/
def notification_status_get (trace_id : String) (db : Store) : Option StatusData :=
  (db.find? (fun kv => kv.1 == trace_id)).map (fun kv => kv.2)

/-- The allowed notification types of
`models.NotificacaoPayload.validar_tipo_notificacao`. -/
def allowed_types : List String := ["EMAIL", "SMS", "PUSH"]

/-- Python's `str.upper()`: upper-case every character. -/
def upper (s : String) : String :=
  String.mk (s.data.map Char.toUpper)

/-- `models.validar_tipo_notificacao`: accept iff the upper-cased value is
one of the allowed types, returning the upper-cased value; otherwise
raise `ValueError` (modelled as `Except.error`). -/
def validar_tipo_notificacao (v : String) : Except String String :=
  if upper v ∈ allowed_types then Except.ok (upper v)
  else Except.error "Tipo inválido. Use um desses: EMAIL, SMS, PUSH"

/-- `models.NotificacaoPayload` after Pydantic validation.  `mensagemId`
is optional in the request with a `uuid4` default factory, so after
parsing it is always a concrete string. -/
structure NotificacaoPayload where
  mensagemId : String
  conteudoMensagem : String
  tipoNotificacao : String
deriving Repr, DecidableEq

/-- The raw request body before Pydantic validation runs
(`mensagemId` already defaulted by the field factory). -/
structure RawPayload where
  mensagemId : String
  conteudoMensagem : String
  tipoNotificacao : String
deriving Repr, DecidableEq

/-- Pydantic model construction for `NotificacaoPayload`: run the field
validator on `tipoNotificacao`; on `ValueError` the request is rejected
before the route handler runs. -/
def parsePayload (raw : RawPayload) : Except String NotificacaoPayload :=
  match validar_tipo_notificacao raw.tipoNotificacao with
  | Except.ok t =>
      Except.ok { mensagemId := raw.mensagemId,
                  conteudoMensagem := raw.conteudoMensagem,
                  tipoNotificacao := t }
  | Except.error e => Except.error e

/-- Behaviour of the external broker at the time of one gateway call:
whether a connection attempt succeeds and whether a publish attempt
succeeds. -/
structure BrokerEnv where
  connectOk : Bool
  publishOk : Bool
deriving Repr, DecidableEq

/-- The state of `rabbitmq_service.ServiceRabbitMQ` that the control flow
of `publish_message` inspects: whether `self.channel` is set. -/
structure ServiceRabbitMQ where
  channel : Bool
deriving Repr, DecidableEq

/-- `ServiceRabbitMQ.connect`: one attempt to open a connection and a
channel; on failure the caught exception is re-raised as
`ConnectionError` (modelled as `Except.error`), leaving the service
unchanged. -/
def ServiceRabbitMQ.connect (s : ServiceRabbitMQ) (broker : BrokerEnv) :
    Except Unit ServiceRabbitMQ :=
  if broker.connectOk then Except.ok { channel := true }
  else Except.error ()

/-- Observable outcome of one `publish_message` call: the service state
afterwards, how many reconnection attempts were made, the messages
actually handed to the broker, and whether an exception escaped to the
caller. -/
structure PublishOutcome (α : Type) where
  service : ServiceRabbitMQ
  connectAttempts : Nat
  published : List (String × α)
  raised : Bool
deriving Repr, DecidableEq

/-- `ServiceRabbitMQ.publish_message`:
if no channel is open, try `connect` once (a failure there raises
`ConnectionError` out of `publish_message`); then try to publish, and
swallow (only log) any exception the publish itself raises. -/
def ServiceRabbitMQ.publish_message {α : Type} (s : ServiceRabbitMQ) (broker : BrokerEnv)
    (queue_name : String) (message_body : α) : PublishOutcome α :=
  if s.channel then
    if broker.publishOk then
      { service := s, connectAttempts := 0,
        published := [(queue_name, message_body)], raised := false }
    else
      { service := s, connectAttempts := 0, published := [], raised := false }
  else
    match s.connect broker with
    | Except.error _ =>
        { service := s, connectAttempts := 1, published := [], raised := true }
    | Except.ok s2 =>
        if broker.publishOk then
          { service := s2, connectAttempts := 1,
            published := [(queue_name, message_body)], raised := false }
        else
          { service := s2, connectAttempts := 1, published := [], raised := false }

/-- The queue the ingestion endpoint publishes to (`main.fila_entrada`). -/
def fila_entrada : String := "fila.notificacao.entrada.ELIEZER"

/-- The wire message `main.notificar` serialises with `json.dumps`. -/
structure QueuePayload where
  traceId : String
  mensagemId : String
  conteudoMensagem : String
  tipoNotificacao : String
deriving Repr, DecidableEq

/-- The dict `notificacao_status` built by `main.notificar` before it is
handed to `notification_status_create`. -/
def mkRecord (trace_id : String) (p : NotificacaoPayload) : StatusData :=
  { traceId := some trace_id,
    mensagemId := p.mensagemId,
    conteudoMensagem := p.conteudoMensagem,
    tipoNotificacao := p.tipoNotificacao,
    status := "RECEBIDO" }

/-- HTTP-level result of the ingestion route. -/
inductive NotifyResult where
  /-- Normal return of the handler; FastAPI sends the declared 202 with
  the returned body. -/
  | accepted (statusCode : Nat) (mensagemId : String) (traceId : String) (statusMsg : String)
  /-- Pydantic validation failed; FastAPI sends a 422 and the handler
  never runs. -/
  | clientError (statusCode : Nat)
  /-- An exception escaped the handler; FastAPI sends a 500. -/
  | serverError
deriving Repr, DecidableEq

/-- `main.notificar` for an already-validated payload: the fresh
`uuid.uuid4()` trace id is passed in as `trace_id`.  It creates the
status record, publishes the wire message to the entry queue, and
returns the 202 body; an exception from `publish_message` escapes the
handler. -/
def notificar (p : NotificacaoPayload) (trace_id : String) (st : Store)
    (broker : BrokerEnv) (gw : ServiceRabbitMQ) :
    NotifyResult × Store × List (String × QueuePayload) :=
  let record := mkRecord trace_id p
  let st2 := notification_status_create record st
  let qp : QueuePayload :=
    { traceId := trace_id, mensagemId := p.mensagemId,
      conteudoMensagem := p.conteudoMensagem, tipoNotificacao := p.tipoNotificacao }
  let pub := gw.publish_message broker fila_entrada qp
  let result :=
    if pub.raised then NotifyResult.serverError
    else NotifyResult.accepted 202 p.mensagemId trace_id
      "Requisição recebida e executada de forma assíncrona."
  (result, st2, pub.published)

/-- The full `POST /api/notificar` route: Pydantic validation first, then
the handler. -/
def handleNotify (raw : RawPayload) (trace_id : String) (st : Store)
    (broker : BrokerEnv) (gw : ServiceRabbitMQ) :
    NotifyResult × Store × List (String × QueuePayload) :=
  match parsePayload raw with
  | Except.error _ => (NotifyResult.clientError 422, st, [])
  | Except.ok p => notificar p trace_id st broker gw

/-- `main.get_notificacao_status`: look up the record; raise 404 when it
is absent; the store is returned unchanged (the handler only reads). -/
def get_notificacao_status (traceId : String) (st : Store) :
    Except Nat StatusData × Store :=
  match notification_status_get traceId st with
  | none => (Except.error 404, st)
  | some d => (Except.ok d, st)

/-- `consumers.entrada_process_message`: inside `message.process()` it
only prints the body, so the observable effect is: store unchanged,
nothing republished, one log line, message acknowledged. -/
def entrada_process_message (body : String) (st : Store) :
    Store × List (String × String) × List String × Bool :=
  (st, [], ["[entrada] Recebido: " ++ body], true)

/-! ### Helper lemmas about the store operations -/

/-- Looking up the key just assigned returns the assigned value. -/
theorem find?_dictInsert_self (k : String) (v : StatusData) (db : Store) :
    (dictInsert k v db).find? (fun kv => kv.1 == k) = some (k, v) := by
  induction db with
  | nil => simp [dictInsert, List.find?]
  | cons kv rest ih =>
      by_cases h : kv.1 = k
      · simp [dictInsert, h, List.find?]
      · simp only [dictInsert, beq_iff_eq, h, if_false, ite_false]
        rw [List.find?_cons_of_neg _ (by simpa using h)]
        exact ih

/-- Every element of `dictInsert k v db` is the new binding or was already
in `db`. -/
theorem mem_dictInsert (k : String) (v : StatusData) (db : Store) :
    ∀ x ∈ dictInsert k v db, x = (k, v) ∨ x ∈ db := by
  induction db with
  | nil => simp [dictInsert]
  | cons kv rest ih =>
      intro x hx
      by_cases h : kv.1 = k
      · simp only [dictInsert, beq_iff_eq, h, if_true, ite_true, List.mem_cons] at hx
        rcases hx with h1 | h1
        · exact Or.inl h1
        · exact Or.inr (List.mem_cons_of_mem _ h1)
      · simp only [dictInsert, beq_iff_eq, h, if_false, ite_false, List.mem_cons] at hx
        rcases hx with h1 | h1
        · exact Or.inr (by simp [h1])
        · rcases ih x h1 with h2 | h2
          · exact Or.inl h2
          · exact Or.inr (List.mem_cons_of_mem _ h2)

/-- An empty lookup means no key matches. -/
theorem any_eq_false_of_find?_none {α : Type} (p : α → Bool) :
    ∀ l : List α, l.find? p = none → l.any p = false := by
  intro l
  induction l with
  | nil => simp
  | cons a rest ih =>
      intro h
      cases hp : p a with
      | true => rw [List.find?_cons_of_pos _ hp] at h; exact absurd h (by simp)
      | false =>
          rw [List.find?_cons_of_neg _ (by simp [hp])] at h
          simp [List.any_cons, hp, ih h]

/-- The status overwrite of `notification_status_update` does not change
which keys are present. -/
theorem any_key_map_update (t s : String) (db : Store) :
    (db.map (fun kv => if kv.1 == t then (kv.1, setStatus kv.2 s) else kv)).any
        (fun kv => kv.1 == t) =
      db.any (fun kv => kv.1 == t) := by
  induction db with
  | nil => simp
  | cons kv rest ih =>
      simp only [List.map_cons, List.any_cons, ih]
      by_cases h : kv.1 = t <;> simp [h]

/-- Overwriting the status twice with the same value is the same as
doing it once. -/
theorem map_update_idem (t s : String) (db : Store) :
    ((db.map (fun kv => if kv.1 == t then (kv.1, setStatus kv.2 s) else kv)).map
        (fun kv => if kv.1 == t then (kv.1, setStatus kv.2 s) else kv)) =
      db.map (fun kv => if kv.1 == t then (kv.1, setStatus kv.2 s) else kv) := by
  induction db with
  | nil => simp
  | cons kv rest ih =>
      simp only [List.map_cons, ih]
      by_cases h : kv.1 = t <;> simp [h, setStatus]

/-- Create-then-get round trip at the record's own (non-empty) key. -/
theorem get_create_self (d : StatusData) (t : String) (db : Store)
    (h1 : d.traceId = some t) (h2 : t ≠ "") :
    notification_status_get t (notification_status_create d db) = some d := by
  unfold notification_status_create
  rw [h1]
  simp only [h2, if_false, ite_false]
  unfold notification_status_get
  rw [find?_dictInsert_self]
  rfl

/-- With a channel open, `publish_message` never lets an exception escape
and never reconnects. -/
theorem publish_message_channel_open {α : Type} (gw : ServiceRabbitMQ) (broker : BrokerEnv)
    (q : String) (b : α) (h : gw.channel = true) :
    (gw.publish_message broker q b).raised = false ∧
      (gw.publish_message broker q b).connectAttempts = 0 := by
  unfold ServiceRabbitMQ.publish_message
  rw [h]
  cases broker.publishOk <;> simp

/-- Anything `publish_message` publishes is the given body on the given
queue. -/
theorem publish_message_published {α : Type} (gw : ServiceRabbitMQ) (broker : BrokerEnv)
    (q : String) (b : α) :
    ∀ x ∈ (gw.publish_message broker q b).published, x = (q, b) := by
  unfold ServiceRabbitMQ.publish_message
  cases h : gw.channel <;> cases hc : broker.connectOk <;> cases hp : broker.publishOk <;>
    simp [ServiceRabbitMQ.connect, hc]

/-- Every record in the store has a present, non-empty `traceId`. -/
abbrev store_inv (st : Store) : Prop :=
  ∀ kv ∈ st, kv.2.traceId ≠ none ∧ kv.2.traceId ≠ some ""

/-! ### The claims -/

/-- Claim C7: the status-update operation is idempotent — applying
`notification_status_update t s` twice in a row leaves the store in
exactly the same state as applying it once. -/
theorem spec_C7 (t s : String) (st : Store) :
    notification_status_update t s (notification_status_update t s st) =
      notification_status_update t s st := by
  unfold notification_status_update
  by_cases h : st.any (fun kv => kv.1 == t) = true
  · simp only [h, if_true, ite_true, any_key_map_update, map_update_idem]
  · simp [h]

/-- Claim C8: updating the status of a `traceId` with no entry in the
store is a no-op — it returns normally and the store is unchanged. -/
theorem spec_C8 (t s : String) (st : Store)
    (h : notification_status_get t st = none) :
    notification_status_update t s st = st := by
  have h2 : st.find? (fun kv => kv.1 == t) = none := by
    unfold notification_status_get at h
    exact Option.map_eq_none'.mp h
  unfold notification_status_update
  simp [any_eq_false_of_find?_none _ _ h2]

/-- Witness for C8 at a concrete absent key. -/
theorem spec_C8_witness :
    notification_status_update "t2" "NOVO"
        [("t1", StatusData.mk (some "t1") "m1" "Oi" "EMAIL" "RECEBIDO")] =
      [("t1", StatusData.mk (some "t1") "m1" "Oi" "EMAIL" "RECEBIDO")] :=
  spec_C8 "t2" "NOVO" [("t1", StatusData.mk (some "t1") "m1" "Oi" "EMAIL" "RECEBIDO")]
    (by decide)

/-- Claim C9: starting from the empty store, the invariant that every
record has a present non-empty `traceId` holds and is preserved by
create, update and get; create refuses data whose `traceId` is missing
or empty. -/
theorem spec_C9 :
    store_inv ([] : Store) ∧
    (∀ d st, store_inv st → store_inv (notification_status_create d st)) ∧
    (∀ t s st, store_inv st → store_inv (notification_status_update t s st)) ∧
    (∀ t st, (get_notificacao_status t st).2 = st) ∧
    (∀ d st, (d.traceId = none ∨ d.traceId = some "") →
      notification_status_create d st = st) := by
  refine ⟨?_, ?_, ?_, ?_, ?_⟩
  · intro kv hkv; exact absurd hkv (List.not_mem_nil kv)
  · intro d st hinv
    unfold notification_status_create
    cases hd : d.traceId with
    | none => exact hinv
    | some u =>
        by_cases hu : u = ""
        · simp only [hu, if_true, ite_true]; exact hinv
        · simp only [hu, if_false, ite_false]
          intro kv hkv
          rcases mem_dictInsert u d st kv hkv with h1 | h1
          · subst h1; simp [hd, hu]
          · exact hinv kv h1
  · intro t s st hinv
    unfold notification_status_update
    by_cases h : st.any (fun kv => kv.1 == t) = true
    · simp only [h, if_true, ite_true]
      intro kv hkv
      rcases List.mem_map.mp hkv with ⟨y, hy, hfy⟩
      by_cases hk : y.1 = t
      · simp only [hk, beq_self_eq_true, if_true, ite_true] at hfy
        rcases hinv y hy with ⟨ha, hb⟩
        subst hfy
        exact ⟨by simpa [setStatus] using ha, by simpa [setStatus] using hb⟩
      · simp only [beq_iff_eq, hk, if_false, ite_false] at hfy
        subst hfy
        exact hinv y hy
    · simp only [h, if_false, ite_false]; exact hinv
  · intro t st
    unfold get_notificacao_status
    cases notification_status_get t st <;> rfl
  · intro d st h
    unfold notification_status_create
    rcases h with h | h <;> rw [h] <;> simp

/-- Witness for C9 at concrete stores and records. -/
theorem spec_C9_witness :
    store_inv (notification_status_create
        (StatusData.mk (some "t1") "m1" "Oi" "EMAIL" "RECEBIDO") []) ∧
    store_inv (notification_status_update "t1" "NOVO"
        [("t1", StatusData.mk (some "t1") "m1" "Oi" "EMAIL" "RECEBIDO")]) ∧
    (get_notificacao_status "t1"
        [("t1", StatusData.mk (some "t1") "m1" "Oi" "EMAIL" "RECEBIDO")]).2 =
      [("t1", StatusData.mk (some "t1") "m1" "Oi" "EMAIL" "RECEBIDO")] ∧
    notification_status_create (StatusData.mk none "m1" "Oi" "EMAIL" "RECEBIDO")
        [("t1", StatusData.mk (some "t1") "m1" "Oi" "EMAIL" "RECEBIDO")] =
      [("t1", StatusData.mk (some "t1") "m1" "Oi" "EMAIL" "RECEBIDO")] :=
  ⟨spec_C9.2.1 (StatusData.mk (some "t1") "m1" "Oi" "EMAIL" "RECEBIDO") []
      (by intro kv hkv; exact absurd hkv (List.not_mem_nil kv)),
   spec_C9.2.2.1 "t1" "NOVO"
      [("t1", StatusData.mk (some "t1") "m1" "Oi" "EMAIL" "RECEBIDO")] (by decide),
   spec_C9.2.2.2.1 "t1"
      [("t1", StatusData.mk (some "t1") "m1" "Oi" "EMAIL" "RECEBIDO")],
   spec_C9.2.2.2.2 (StatusData.mk none "m1" "Oi" "EMAIL" "RECEBIDO")
      [("t1", StatusData.mk (some "t1") "m1" "Oi" "EMAIL" "RECEBIDO")] (Or.inl rfl)⟩

/-- Claim C10: create-then-get round trip — creating a record whose
`traceId` is present and non-empty, then querying that `traceId`,
returns exactly the record that was stored. -/
theorem spec_C10 (d : StatusData) (t : String) (st : Store)
    (h1 : d.traceId = some t) (h2 : t ≠ "") :
    notification_status_get t (notification_status_create d st) = some d :=
  get_create_self d t st h1 h2

/-- Witness for C10 at a concrete record. -/
theorem spec_C10_witness :
    notification_status_get "t1"
        (notification_status_create
          (StatusData.mk (some "t1") "m1" "Oi" "EMAIL" "RECEBIDO") []) =
      some (StatusData.mk (some "t1") "m1" "Oi" "EMAIL" "RECEBIDO") :=
  spec_C10 (StatusData.mk (some "t1") "m1" "Oi" "EMAIL" "RECEBIDO") "t1" [] rfl (by decide)

/-- Claim C4: a publish with no open channel makes exactly one reconnect
attempt, and when that reconnect fails the failure is observable by the
caller of `publish_message` (the exception reaches it) and nothing was
published. -/
theorem spec_C4 {α : Type} (gw : ServiceRabbitMQ) (broker : BrokerEnv)
    (q : String) (b : α) (h : gw.channel = false) :
    (gw.publish_message broker q b).connectAttempts = 1 ∧
    (broker.connectOk = false →
      (gw.publish_message broker q b).raised = true ∧
      (gw.publish_message broker q b).published = []) := by
  unfold ServiceRabbitMQ.publish_message ServiceRabbitMQ.connect
  rw [h]
  cases hc : broker.connectOk <;> cases hp : broker.publishOk <;> simp [hc, hp]

/-- Witness for C4: closed channel, broker down. -/
theorem spec_C4_witness :
    ((ServiceRabbitMQ.mk false).publish_message (BrokerEnv.mk false true)
        "fila" "corpo").connectAttempts = 1 ∧
    ((ServiceRabbitMQ.mk false).publish_message (BrokerEnv.mk false true)
        "fila" "corpo").raised = true ∧
    ((ServiceRabbitMQ.mk false).publish_message (BrokerEnv.mk false true)
        "fila" "corpo").published = [] := by
  have h := spec_C4 (ServiceRabbitMQ.mk false) (BrokerEnv.mk false true) "fila" "corpo" rfl
  exact ⟨h.1, (h.2 rfl).1, (h.2 rfl).2⟩

/-- Claim C6: the status query returns the full stored record when the
`traceId` is present, a 404 error when it is absent, and never changes
the store. -/
theorem spec_C6 (t : String) (st : Store) :
    (∀ d, notification_status_get t st = some d →
        get_notificacao_status t st = (Except.ok d, st)) ∧
    (notification_status_get t st = none →
        get_notificacao_status t st = (Except.error 404, st)) := by
  unfold get_notificacao_status
  constructor
  · intro d hd; rw [hd]
  · intro hn; rw [hn]

/-- Witness for C6: one present key, one absent key. -/
theorem spec_C6_witness :
    get_notificacao_status "t1"
        [("t1", StatusData.mk (some "t1") "m1" "Oi" "EMAIL" "RECEBIDO")] =
      (Except.ok (StatusData.mk (some "t1") "m1" "Oi" "EMAIL" "RECEBIDO"),
       [("t1", StatusData.mk (some "t1") "m1" "Oi" "EMAIL" "RECEBIDO")]) ∧
    get_notificacao_status "t9" ([] : Store) = (Except.error 404, ([] : Store)) :=
  ⟨(spec_C6 "t1" [("t1", StatusData.mk (some "t1") "m1" "Oi" "EMAIL" "RECEBIDO")]).1
      (StatusData.mk (some "t1") "m1" "Oi" "EMAIL" "RECEBIDO") (by decide),
   (spec_C6 "t9" ([] : Store)).2 rfl⟩

/-- The message the ingestion handler publishes for a payload and trace. -/
theorem notificar_published (p : NotificacaoPayload) (t : String) (st : Store)
    (broker : BrokerEnv) (gw : ServiceRabbitMQ) :
    ∀ x ∈ (notificar p t st broker gw).2.2,
      x = (fila_entrada,
        QueuePayload.mk t p.mensagemId p.conteudoMensagem p.tipoNotificacao) :=
  publish_message_published gw broker fila_entrada
    (QueuePayload.mk t p.mensagemId p.conteudoMensagem p.tipoNotificacao)

/-- Claim C1 (amended): for a validated payload and an open channel, the
ingestion handler returns the 202 body carrying the trace id and the
message id, and an immediate status query for that trace id returns the
stored record, whose status is the literal the code writes,
"RECEBIDO". -/
theorem spec_C1 (p : NotificacaoPayload) (t : String) (st : Store)
    (broker : BrokerEnv) (gw : ServiceRabbitMQ)
    (h1 : t ≠ "") (h2 : gw.channel = true) :
    (notificar p t st broker gw).1 =
      NotifyResult.accepted 202 p.mensagemId t
        "Requisição recebida e executada de forma assíncrona." ∧
    (get_notificacao_status t (notificar p t st broker gw).2.1).1 =
      Except.ok (mkRecord t p) ∧
    (mkRecord t p).status = "RECEBIDO" := by
  have hopen := (publish_message_channel_open gw broker fila_entrada
      (QueuePayload.mk t p.mensagemId p.conteudoMensagem p.tipoNotificacao) h2).1
  refine ⟨?_, ?_, rfl⟩
  · simp only [notificar]
    rw [hopen]
    simp
  · have hst : (notificar p t st broker gw).2.1 =
        notification_status_create (mkRecord t p) st := rfl
    rw [hst]
    unfold get_notificacao_status
    rw [get_create_self (mkRecord t p) t st rfl h1]

/-- Witness for C1 (amended) at a concrete payload and trace. -/
theorem spec_C1_witness :
    (notificar (NotificacaoPayload.mk "m1" "Olá" "EMAIL") "t1" []
        (BrokerEnv.mk true true) (ServiceRabbitMQ.mk true)).1 =
      NotifyResult.accepted 202 "m1" "t1"
        "Requisição recebida e executada de forma assíncrona." ∧
    (get_notificacao_status "t1"
        (notificar (NotificacaoPayload.mk "m1" "Olá" "EMAIL") "t1" []
          (BrokerEnv.mk true true) (ServiceRabbitMQ.mk true)).2.1).1 =
      Except.ok (mkRecord "t1" (NotificacaoPayload.mk "m1" "Olá" "EMAIL")) ∧
    (mkRecord "t1" (NotificacaoPayload.mk "m1" "Olá" "EMAIL")).status = "RECEBIDO" :=
  spec_C1 (NotificacaoPayload.mk "m1" "Olá" "EMAIL") "t1" []
    (BrokerEnv.mk true true) (ServiceRabbitMQ.mk true) (by decide) rfl

/-- Counterexample to C1 as stated: for the accepted payload
(contentMessage "Olá", type "EMAIL") the record retrieved immediately
after ingestion has status "RECEBIDO", which is not the literal
"RECEIVED" the claim names. -/
theorem spec_C1_counterexample :
    (notificar (NotificacaoPayload.mk "m1" "Olá" "EMAIL") "t1" []
        (BrokerEnv.mk true true) (ServiceRabbitMQ.mk true)).1 =
      NotifyResult.accepted 202 "m1" "t1"
        "Requisição recebida e executada de forma assíncrona." ∧
    (get_notificacao_status "t1"
        (notificar (NotificacaoPayload.mk "m1" "Olá" "EMAIL") "t1" []
          (BrokerEnv.mk true true) (ServiceRabbitMQ.mk true)).2.1).1 =
      Except.ok (StatusData.mk (some "t1") "m1" "Olá" "EMAIL" "RECEBIDO") ∧
    "RECEBIDO" ≠ "RECEIVED" := by
  refine ⟨rfl, rfl, by decide⟩

/-- Claim C2 (amended): the entry consumer acknowledges each message and
logs its body; it leaves the store unchanged and republishes nothing
(intake processing is only simulated). -/
theorem spec_C2 (body : String) (st : Store) :
    (entrada_process_message body st).1 = st ∧
    (entrada_process_message body st).2.1 = [] ∧
    (entrada_process_message body st).2.2.1 = ["[entrada] Recebido: " ++ body] ∧
    (entrada_process_message body st).2.2.2 = true :=
  ⟨rfl, rfl, rfl, rfl⟩

/-- Counterexample to C2 as stated: delivering a concrete message for a
stored trace acknowledges it (the stage completes) yet no status is
updated and nothing is republished, neither to validation nor to
retry. -/
theorem spec_C2_counterexample :
    (entrada_process_message "corpo"
        [("t1", StatusData.mk (some "t1") "m1" "Olá" "EMAIL" "RECEBIDO")]).2.2.2 = true ∧
    (entrada_process_message "corpo"
        [("t1", StatusData.mk (some "t1") "m1" "Olá" "EMAIL" "RECEBIDO")]).1 =
      [("t1", StatusData.mk (some "t1") "m1" "Olá" "EMAIL" "RECEBIDO")] ∧
    notification_status_get "t1"
        (entrada_process_message "corpo"
          [("t1", StatusData.mk (some "t1") "m1" "Olá" "EMAIL" "RECEBIDO")]).1 =
      some (StatusData.mk (some "t1") "m1" "Olá" "EMAIL" "RECEBIDO") ∧
    ¬ ((∃ x ∈ (entrada_process_message "corpo"
          [("t1", StatusData.mk (some "t1") "m1" "Olá" "EMAIL" "RECEBIDO")]).2.1,
            x.1 = "validacao") ∨
       (∃ x ∈ (entrada_process_message "corpo"
          [("t1", StatusData.mk (some "t1") "m1" "Olá" "EMAIL" "RECEBIDO")]).2.1,
            x.1 = "retry")) := by
  refine ⟨rfl, rfl, by decide, by decide⟩

/-- Claim C3 (the defect): with an open channel and a broker publish that
fails, the caught exception is only logged — the handler still returns
the 202 accepted body, leaves a RECEBIDO record behind, and nothing was
published. -/
theorem spec_C3_bug :
    notificar (NotificacaoPayload.mk "m1" "Olá" "EMAIL") "t1" []
        (BrokerEnv.mk true false) (ServiceRabbitMQ.mk true) =
      (NotifyResult.accepted 202 "m1" "t1"
          "Requisição recebida e executada de forma assíncrona.",
       [("t1", StatusData.mk (some "t1") "m1" "Olá" "EMAIL" "RECEBIDO")],
       ([] : List (String × QueuePayload))) := by decide

/-- Claim C5: validation succeeds iff the upper-cased type is EMAIL, SMS
or PUSH; on success the stored record and every published message carry
the upper-cased type; on rejection the route answers 422 and the store
is untouched. -/
theorem spec_C5 (raw : RawPayload) (t : String) (st : Store)
    (broker : BrokerEnv) (gw : ServiceRabbitMQ) :
    ((∃ u, validar_tipo_notificacao raw.tipoNotificacao = Except.ok u) ↔
        (upper raw.tipoNotificacao) ∈ allowed_types) ∧
    ((upper raw.tipoNotificacao) ∈ allowed_types →
        validar_tipo_notificacao raw.tipoNotificacao =
          Except.ok (upper raw.tipoNotificacao) ∧
        handleNotify raw t st broker gw =
          notificar (NotificacaoPayload.mk raw.mensagemId raw.conteudoMensagem
            (upper raw.tipoNotificacao)) t st broker gw) ∧
    ((upper raw.tipoNotificacao) ∈ allowed_types → t ≠ "" →
        ∀ d, notification_status_get t (handleNotify raw t st broker gw).2.1 = some d →
          d.tipoNotificacao = (upper raw.tipoNotificacao)) ∧
    (∀ q b, (q, b) ∈ (handleNotify raw t st broker gw).2.2 →
        b.tipoNotificacao = (upper raw.tipoNotificacao)) ∧
    ((upper raw.tipoNotificacao) ∉ allowed_types →
        handleNotify raw t st broker gw = (NotifyResult.clientError 422, st, [])) := by
  by_cases hmem : (upper raw.tipoNotificacao) ∈ allowed_types
  · have hv : validar_tipo_notificacao raw.tipoNotificacao =
        Except.ok (upper raw.tipoNotificacao) := by
      unfold validar_tipo_notificacao
      rw [if_pos hmem]
    have hh : handleNotify raw t st broker gw =
        notificar (NotificacaoPayload.mk raw.mensagemId raw.conteudoMensagem
          (upper raw.tipoNotificacao)) t st broker gw := by
      unfold handleNotify parsePayload
      rw [hv]
    refine ⟨?_, fun _ => ⟨hv, hh⟩, ?_, ?_, fun hn => absurd hmem hn⟩
    · constructor
      · intro _; exact hmem
      · intro _; exact ⟨(upper raw.tipoNotificacao), hv⟩
    · intro _ ht d hd
      rw [hh] at hd
      have hst : (notificar (NotificacaoPayload.mk raw.mensagemId raw.conteudoMensagem
          (upper raw.tipoNotificacao)) t st broker gw).2.1 =
        notification_status_create
          (mkRecord t (NotificacaoPayload.mk raw.mensagemId raw.conteudoMensagem
            (upper raw.tipoNotificacao))) st := rfl
      rw [hst, get_create_self _ t st rfl ht] at hd
      cases hd
      rfl
    · intro q b hqb
      rw [hh] at hqb
      have := notificar_published (NotificacaoPayload.mk raw.mensagemId
        raw.conteudoMensagem (upper raw.tipoNotificacao)) t st broker gw (q, b) hqb
      cases this
      rfl
  · have hv : validar_tipo_notificacao raw.tipoNotificacao =
        Except.error "Tipo inválido. Use um desses: EMAIL, SMS, PUSH" := by
      unfold validar_tipo_notificacao
      rw [if_neg hmem]
    have hh : handleNotify raw t st broker gw =
        (NotifyResult.clientError 422, st, []) := by
      unfold handleNotify parsePayload
      rw [hv]
    refine ⟨?_, fun hc => absurd hc hmem, fun hc => absurd hc hmem, ?_, fun _ => hh⟩
    · constructor
      · rintro ⟨u, hu⟩
        rw [hv] at hu
        exact absurd hu (by simp)
      · intro hc; exact absurd hc hmem
    · intro q b hqb
      rw [hh] at hqb
      exact absurd hqb (List.not_mem_nil (q, b))

/-- Witness for C5: the lower-case "email" is accepted and normalized;
the invalid "carta" is rejected with 422 and no record is created. -/
theorem spec_C5_witness :
    validar_tipo_notificacao "email" = Except.ok "EMAIL" ∧
    handleNotify (RawPayload.mk "m1" "Olá" "carta") "t1" []
        (BrokerEnv.mk true true) (ServiceRabbitMQ.mk true) =
      (NotifyResult.clientError 422, [], []) :=
  ⟨((spec_C5 (RawPayload.mk "m1" "Olá" "email") "t1" [] (BrokerEnv.mk true true)
      (ServiceRabbitMQ.mk true)).2.1 (by decide)).1,
   (spec_C5 (RawPayload.mk "m1" "Olá" "carta") "t1" [] (BrokerEnv.mk true true)
      (ServiceRabbitMQ.mk true)).2.2.2.2 (by decide)⟩
